import Mathlib

/-
Shallow embedding of the availability-detection core of cf-vps-monitor
(src/worker.js and the embedded host agent ping_daemon.py), together with
theorems checking the natural-language specification against it.

Conventions: times are modelled as `Int` seconds (JS numbers holding Unix
timestamps); SQL NULL / JS null is `Option.none`; machine arithmetic in the
relevant ranges is exact, so `Int`/`Nat` are faithful.
-/

namespace CfVps

/-- The status values stored in `monitored_sites.last_status`
(worker.js: PENDING, UP, DOWN, TIMEOUT, ERROR). -/
inductive Status where
  | PENDING
  | UP
  | DOWN
  | TIMEOUT
  | ERROR
deriving DecidableEq

/-- The failing class, as the literal list [DOWN, TIMEOUT, ERROR]
used at worker.js 1185 and 1186. -/
def FAILING : List Status := [Status.DOWN, Status.TIMEOUT, Status.ERROR]

/-- The test `FAILING.includes(s)` from worker.js 1185/1186/1203. -/
def isFailing (s : Status) : Bool := FAILING.contains s

/-- worker.js 1158: `const NOTIFICATION_INTERVAL_SECONDS = 1 * 60 * 60`. -/
def NOTIFICATION_INTERVAL_SECONDS : Int := 1 * 60 * 60

/-- Which Telegram message a code path dispatches (the four message templates
at worker.js 1188, 1195, 1204, 1313, 1323). -/
inductive NotifKind where
  | siteDown
  | siteStillDown
  | siteRecovered
  | vpsDown
  | vpsRecovered
deriving DecidableEq

/-- Outcome of the notification step of the Engine: the message dispatched (if any)
and the new value of `last_notified_down_at`. -/
structure EngineDecision where
  notification : Option NotifKind
  lastNotifiedDownAt : Option Int
deriving DecidableEq

/-- The notification logic of `checkWebsiteStatus`, worker.js 1183-1208.
`newSiteLastNotifiedDownAt` starts as the persisted value and is only changed
inside the branches; the repeated-failure branch resends iff
`siteLastNotifiedDownAt === null || checkTime - siteLastNotifiedDownAt >
NOTIFICATION_INTERVAL_SECONDS`. -/
def notifyDecision (previousStatus newStatus : Status)
    (siteLastNotifiedDownAt : Option Int) (checkTime : Int) : EngineDecision :=
  if isFailing newStatus then
    if isFailing previousStatus = false then
      ⟨some NotifKind.siteDown, some checkTime⟩
    else
      match siteLastNotifiedDownAt with
      | none => ⟨some NotifKind.siteStillDown, some checkTime⟩
      | some t =>
        if checkTime - t > NOTIFICATION_INTERVAL_SECONDS then
          ⟨some NotifKind.siteStillDown, some checkTime⟩
        else
          ⟨none, some t⟩
  else if newStatus = Status.UP ∧ isFailing previousStatus = true then
    ⟨some NotifKind.siteRecovered, none⟩
  else
    ⟨none, siteLastNotifiedDownAt⟩

/-- Result of the single HEAD fetch with redirect follow and
AbortSignal.timeout(15000) at worker.js 1162, before classification: a
response with an HTTP status, an abort by the 15 s timeout (an error whose
name field is TimeoutError), or any other transport failure. -/
inductive FetchOutcome where
  | response (status : Nat)
  | timeoutError
  | otherError
deriving DecidableEq

/-- `response.ok` of the Fetch API: status in [200, 299]. -/
def respOk (status : Nat) : Bool := 200 ≤ status && status ≤ 299

/-- Classification of the probe outcome, worker.js 1161-1179:
`response.ok || (300 <= status < 500)` is UP, any other response DOWN,
a TimeoutError TIMEOUT, any other exception ERROR. -/
def classifyProbe : FetchOutcome → Status
  | FetchOutcome.response s =>
    if respOk s || (300 ≤ s && s < 500) then Status.UP else Status.DOWN
  | FetchOutcome.timeoutError => Status.TIMEOUT
  | FetchOutcome.otherError => Status.ERROR

/-- `newStatusCode`: set to `response.status` when a response arrives
(worker.js 1164), left null on an exception. -/
def probeStatusCode : FetchOutcome → Option Nat
  | FetchOutcome.response s => some s
  | FetchOutcome.timeoutError => none
  | FetchOutcome.otherError => none

lemma classifyProbe_ne_PENDING (o : FetchOutcome) :
    classifyProbe o ≠ Status.PENDING := by
  cases o with
  | response s =>
    simp only [classifyProbe]
    split <;> simp
  | timeoutError => simp [classifyProbe]
  | otherError => simp [classifyProbe]

/-- The status-related columns of one `monitored_sites` row that
`checkWebsiteStatus` reads and writes (worker.js 1149-1153 and 1212-1219). -/
structure SiteRecord where
  last_checked : Option Int
  last_status : Status
  last_status_code : Option Nat
  last_response_time_ms : Option Int
  last_notified_down_at : Option Int
deriving DecidableEq

/-- One row of `site_status_history` as inserted at worker.js 1215-1220. -/
structure StatusEvent where
  site_timestamp : Int
  status : Status
  status_code : Option Nat
  response_time_ms : Option Int
deriving DecidableEq

/-- Everything one run of `checkWebsiteStatus` leaves behind: the updated
site row, the history table, and the message handed to the Dispatcher. -/
structure CheckResult where
  site : SiteRecord
  history : List StatusEvent
  notification : Option NotifKind
deriving DecidableEq

/-- One full run of `checkWebsiteStatus` (worker.js 1139-1226) for a site
whose persisted row is `site` and whose history table is `history`, when the
probe resolves to `outcome` after `responseTime` ms at Unix second
`checkTime`: classify, decide the notification, then unconditionally update
the row and append exactly one history row (the `db.batch` at 1218-1221). -/
def checkWebsiteStatus (site : SiteRecord) (history : List StatusEvent)
    (outcome : FetchOutcome) (responseTime : Int) (checkTime : Int) :
    CheckResult :=
  let newStatus := classifyProbe outcome
  let newStatusCode := probeStatusCode outcome
  let d := notifyDecision site.last_status newStatus
    site.last_notified_down_at checkTime
  ⟨⟨some checkTime, newStatus, newStatusCode, some responseTime,
      d.lastNotifiedDownAt⟩,
    history ++ [⟨checkTime, newStatus, newStatusCode, some responseTime⟩],
    d.notification⟩

/-- A freshly created site row: `last_status` defaults to PENDING and
`last_notified_down_at` to NULL (worker.js 1142/1145-1146 read defaults). -/
def initialSite : SiteRecord := ⟨none, Status.PENDING, none, none, none⟩

/-- Iterated Engine evaluations for one site: each element of the input list
is one check (probe outcome, response time, check time). -/
def runChecks : SiteRecord → List StatusEvent →
    List (FetchOutcome × Int × Int) → SiteRecord × List StatusEvent
  | site, history, [] => (site, history)
  | site, history, (o, rt, t) :: rest =>
    let r := checkWebsiteStatus site history o rt t
    runChecks r.site r.history rest

/-- The invariant claimed for `last_notified_down_at`: it is non-null only
while the persisted status is in the FAILING class. -/
def notifInvariant (site : SiteRecord) : Bool :=
  site.last_notified_down_at = none || isFailing site.last_status

/- ------------------------------------------------------------------
Liveness Watchdog (worker.js 1301-1332)
------------------------------------------------------------------ -/

/-- worker.js 1302: `const staleThresholdSeconds = 5 * 60`. -/
def staleThresholdSeconds : Int := 5 * 60

/-- worker.js 1306: `!server.last_report || (nowSeconds - server.last_report
> staleThresholdSeconds)`. `last_report` comes from a LEFT JOIN, hence NULL
when the host never reported; `!x` in JS is also true for the number 0, so a
reported timestamp of exactly 0 is treated as stale. -/
def isStale (lastReport : Option Int) (now : Int) : Bool :=
  match lastReport with
  | none => true
  | some t => decide (t = 0 ∨ now - t > staleThresholdSeconds)

/-- Staleness as the specification words it: stale iff no metrics were ever
received or `now - metrics.timestamp` exceeds 5 minutes. Stated from the
words of the spec, for comparison with `isStale` taken from the code. -/
def claimIsStale (lastReport : Option Int) (now : Int) : Bool :=
  match lastReport with
  | none => true
  | some t => decide (now - t > staleThresholdSeconds)

/-- Outcome of one Watchdog evaluation of one host: the message dispatched
(if any) and the new value of the `last_notified_down_at` of the host. -/
structure WatchdogDecision where
  notification : Option NotifKind
  lastNotifiedDownAt : Option Int
deriving DecidableEq

/-- Evaluation of one host in the scheduled VPS pass, worker.js 1305-1331:
when stale, notify iff `last_notified_down_at === null || nowSeconds -
last_notified_down_at > NOTIFICATION_INTERVAL_SECONDS` and refresh the
timestamp on send; when not stale, send one recovery message and clear the
field iff it is non-null. -/
def watchdogCheck (lastReport : Option Int) (lastNotifiedDownAt : Option Int)
    (now : Int) : WatchdogDecision :=
  if isStale lastReport now then
    match lastNotifiedDownAt with
    | none => ⟨some NotifKind.vpsDown, some now⟩
    | some t =>
      if now - t > NOTIFICATION_INTERVAL_SECONDS then
        ⟨some NotifKind.vpsDown, some now⟩
      else
        ⟨none, some t⟩
  else
    match lastNotifiedDownAt with
    | some _ => ⟨some NotifKind.vpsRecovered, none⟩
    | none => ⟨none, none⟩

/- ------------------------------------------------------------------
Probe Scheduler batching (worker.js 1261-1274)
------------------------------------------------------------------ -/

/-- worker.js 1264: `const siteConcurrencyLimit = 10`. -/
def siteConcurrencyLimit : Nat := 10

/-- The batching loop of the scheduled handler, worker.js 1265-1274:
`sitePromises` accumulates tasks; once `sitePromises.length >=
siteConcurrencyLimit` the whole batch is awaited and the array reset; a
final partial batch is awaited after the loop. The result lists the awaited
batches in order. -/
def batchSitesGo {α : Type} : List α → List α → List (List α)
  | pending, [] => if pending.isEmpty then [] else [pending]
  | pending, s :: rest =>
    let pending' := pending ++ [s]
    if siteConcurrencyLimit ≤ pending'.length then
      pending' :: batchSitesGo [] rest
    else
      batchSitesGo pending' rest

/-- The batches of checks one scheduler trigger awaits, in order. -/
def batchSites {α : Type} (sites : List α) : List (List α) :=
  batchSitesGo [] sites

/- ------------------------------------------------------------------
Carrier Prober + Loss Aggregator (ping_daemon.py, embedded at
worker.js 1440-1516 and src/unnamed/part_000 lines 32-100)
------------------------------------------------------------------ -/

/-- ping_daemon.py: `HISTORY_LEN = 100`. -/
def HISTORY_LEN : Nat := 100

/-- `deque(maxlen).append(b)`: append on the right, evicting from the left
when the buffer already holds `maxlen` samples. -/
def dequeAppend (maxlen : Nat) (q : List Bool) (b : Bool) : List Bool :=
  let q' := q ++ [b]
  if maxlen < q'.length then q'.drop (q'.length - maxlen) else q'

/-- The buffer of a prober after it has pushed the samples `xs`, in order, onto
the buffer `q` (the `history[carrier].append(result)` loop of `worker`). -/
def pushSamples (q : List Bool) (xs : List Bool) : List Bool :=
  xs.foldl (dequeAppend HISTORY_LEN) q

/-- Fuel-bounded base-2 logarithm: `nlog2 fuel v` is the floor of log2 of
`v` whenever `1 ≤ v < 2 ^ fuel` (and the fuel below is always 128, far above
every value arising here). Structural recursion on the fuel keeps the
function kernel-reducible. -/
def nlog2 : Nat → Nat → Nat
  | 0, _ => 0
  | fuel + 1, v => if 2 ≤ v then nlog2 fuel (v / 2) + 1 else 0

/-- Round the non-negative fraction `a / b` to the nearest integer, ties to
even — the rounding step of IEEE-754 round-to-nearest-even. -/
def rneFrac (a b : Nat) : Nat :=
  let f := a / b
  let r2 := 2 * (a % b)
  if r2 < b then f
  else if b < r2 then f + 1
  else if f % 2 = 0 then f else f + 1

/-- Exact IEEE-754 binary64 rounding of the non-negative fraction `a / b`,
returned as an unreduced fraction: with `l - 60` the floor of log2 of the
value, the significand is scaled to `[2 ^ 52, 2 ^ 53)`, rounded to nearest
with ties to even, and scaled back. This is the correctly-rounded binary64
result for every value in `[2 ^ (-60), 2 ^ 140)`, far from the subnormal
and overflow thresholds, so it is exact for all values arising in the loss
computation (which lie in `[1 / 100, 100]`). -/
def roundB64 (a b : Nat) : Nat × Nat :=
  if a = 0 then (0, 1)
  else
    let l := nlog2 128 (a * 2 ^ 60 / b)
    if l ≤ 112 then (rneFrac (a * 2 ^ (112 - l)) b, 2 ^ (112 - l))
    else (rneFrac a (b * 2 ^ (l - 112)) * 2 ^ (l - 112), 1)

/-- The per-carrier computation of `data_writer` (ping_daemon.py):
`0` for an empty buffer, else `int((lost_count / len(q)) * 100)` evaluated
in Python floats, i.e. binary64: one correctly-rounded division, one
correctly-rounded multiplication by 100, then truncation towards zero
(which on these non-negative values is the floor, here a Nat division).
Note this is NOT the exact floor of `100 * lost / len`: binary64 rounding
publishes one less at some windows, see `lossRate_floating_gap`. -/
def lossRate (q : List Bool) : Nat :=
  if q.length = 0 then 0
  else
    let d := roundB64 (q.count false) q.length
    let p := roundB64 (d.1 * 100) d.2
    p.1 / p.2

/-- The loss figure as the specification words it:
`round(100 * failureCount / sampleCount)`, an empty buffer giving 0.
Stated from the words of the spec, for comparison with `lossRate` taken from the
code; `round(x) = floor(x + 1/2)` written over naturals. -/
def claimLossPercent (q : List Bool) : Nat :=
  if q.length = 0 then 0
  else (200 * q.count false + q.length) / (2 * q.length)

/- ------------------------------------------------------------------
Metrics ingestion validation (worker.js 455-509)
------------------------------------------------------------------ -/

/-- A JSON value as far as the report validation inspects it: absent
(undefined), null, a number, or a (non-null) object — objects are always
truthy in JS, numbers are truthy iff non-zero. -/
inductive JVal where
  | undef
  | jnull
  | num (n : Int)
  | obj
deriving DecidableEq

/-- JS truthiness of a `JVal`. -/
def truthy : JVal → Bool
  | JVal.undef => false
  | JVal.jnull => false
  | JVal.num n => decide (n ≠ 0)
  | JVal.obj => true

/-- The fields of a report body that the handler inspects. -/
structure ReportBody where
  timestamp : JVal
  cpu : JVal
  memory : JVal
  disk : JVal
  network : JVal
  uptime : JVal
  ping : JVal
deriving DecidableEq

/-- worker.js 485: `!reportData.timestamp || !reportData.cpu ||
!reportData.memory || !reportData.disk || !reportData.network || typeof
reportData.uptime is the undefined type` rejects; so the first five fields are
checked by truthiness, `uptime` only for presence. -/
def reportValid (r : ReportBody) : Bool :=
  truthy r.timestamp && truthy r.cpu && truthy r.memory && truthy r.disk &&
    truthy r.network && !(r.uptime = JVal.undef : Bool)

/-- The post-authentication part of the `/api/report/` handler, worker.js
484-509: an invalid body is answered with status 400 and the stored
MetricsSnapshot is untouched; a valid one REPLACEs the snapshot (`ping`
defaulting to `{}` when falsy, line 505) and is answered with 200. -/
def handleReport (r : ReportBody) (stored : Option ReportBody) :
    Nat × Option ReportBody :=
  if reportValid r then
    (200, some ⟨r.timestamp, r.cpu, r.memory, r.disk, r.network, r.uptime,
      if truthy r.ping then r.ping else JVal.obj⟩)
  else
    (400, stored)

/- ------------------------------------------------------------------
Helper lemmas about the Engine
------------------------------------------------------------------ -/

lemma notifyDecision_failing_failing (p q : Status) (l : Option Int) (n : Int)
    (hp : isFailing p = true) (hq : isFailing q = true) :
    notifyDecision p q l n =
      match l with
      | none => ⟨some NotifKind.siteStillDown, some n⟩
      | some t =>
        if n - t > NOTIFICATION_INTERVAL_SECONDS then
          ⟨some NotifKind.siteStillDown, some n⟩
        else
          ⟨none, some t⟩ := by
  simp [notifyDecision, hp, hq]

lemma notifyDecision_first_down (p q : Status) (l : Option Int) (n : Int)
    (hp : isFailing p = false) (hq : isFailing q = true) :
    notifyDecision p q l n = ⟨some NotifKind.siteDown, some n⟩ := by
  simp [notifyDecision, hp, hq]

lemma notifyDecision_recovery (p : Status) (l : Option Int) (n : Int)
    (hp : isFailing p = true) :
    notifyDecision p Status.UP l n = ⟨some NotifKind.siteRecovered, none⟩ := by
  have hup : isFailing Status.UP = false := rfl
  simp [notifyDecision, hp, hup]

lemma notifyDecision_no_failing (p q : Status) (l : Option Int) (n : Int)
    (hp : isFailing p = false) (hq : isFailing q = false) :
    notifyDecision p q l n = ⟨none, l⟩ := by
  simp [notifyDecision, hp, hq]

/- ------------------------------------------------------------------
Claims C1 - C4
------------------------------------------------------------------ -/

/-- C1: when the persisted previous status and the new result are both in
the FAILING class, a (repeat-failure) notification is dispatched iff the
stored last_notified_down_at is null or more than the 1-hour cooldown before
the check time; on send the field is refreshed to the check time, otherwise
it is left unchanged; consequently a second still-failing check within the
cooldown of a refreshed timestamp dispatches nothing. -/
theorem C1_repeat_failure_cooldown (p q : Status) (l : Option Int) (n : Int)
    (hp : isFailing p = true) (hq : isFailing q = true) :
    ((notifyDecision p q l n).notification ≠ none ↔
      (l = none ∨ ∃ t, l = some t ∧ n - t > NOTIFICATION_INTERVAL_SECONDS))
    ∧ ((l = none ∨ ∃ t, l = some t ∧ n - t > NOTIFICATION_INTERVAL_SECONDS) →
        notifyDecision p q l n = ⟨some NotifKind.siteStillDown, some n⟩)
    ∧ (∀ t, l = some t → n - t ≤ NOTIFICATION_INTERVAL_SECONDS →
        notifyDecision p q l n = ⟨none, l⟩)
    ∧ (∀ (p2 q2 : Status) (n2 : Int), isFailing p2 = true →
        isFailing q2 = true → n2 - n ≤ NOTIFICATION_INTERVAL_SECONDS →
        (notifyDecision p2 q2 (some n) n2).notification = none) := by
  refine ⟨?_, ?_, ?_, ?_⟩
  · rw [notifyDecision_failing_failing p q l n hp hq]
    cases l with
    | none => simp
    | some t =>
      by_cases h : n - t > NOTIFICATION_INTERVAL_SECONDS <;> simp [h]
  · intro h
    rw [notifyDecision_failing_failing p q l n hp hq]
    rcases h with h | ⟨t, ht, hgt⟩
    · simp [h]
    · simp [ht, hgt]
  · intro t ht hle
    rw [notifyDecision_failing_failing p q l n hp hq, ht]
    simp only []
    rw [if_neg (by omega)]
  · intro p2 q2 n2 hp2 hq2 hle
    rw [notifyDecision_failing_failing p2 q2 (some n) n2 hp2 hq2]
    simp only []
    rw [if_neg (by omega)]

/-- Witness for C1 at a concrete input: previous DOWN, new TIMEOUT, stored
timestamp 0, check time 4000 (cooldown elapsed). -/
theorem C1_repeat_failure_cooldown_witness :
    isFailing Status.DOWN = true ∧ isFailing Status.TIMEOUT = true ∧
    notifyDecision Status.DOWN Status.TIMEOUT (some 0) 4000 =
      ⟨some NotifKind.siteStillDown, some 4000⟩ :=
  ⟨rfl, rfl,
    (C1_repeat_failure_cooldown Status.DOWN Status.TIMEOUT (some 0) 4000
      rfl rfl).2.1 (Or.inr ⟨0, rfl, by norm_num [NOTIFICATION_INTERVAL_SECONDS]⟩)⟩

/-- C2: when the persisted previous status is not in the FAILING class and
the new result is, exactly one down notification is dispatched immediately —
for every stored last_notified_down_at value, so the cooldown is not
consulted — and the field is set to the check time. -/
theorem C2_first_failure (p q : Status) (l : Option Int) (n : Int)
    (hp : isFailing p = false) (hq : isFailing q = true) :
    notifyDecision p q l n = ⟨some NotifKind.siteDown, some n⟩ :=
  notifyDecision_first_down p q l n hp hq

/-- Witness for C2 at a concrete input: previous UP, new DOWN, a stored
timestamp within the cooldown (0 at check time 10) is still notified. -/
theorem C2_first_failure_witness :
    isFailing Status.UP = false ∧ isFailing Status.DOWN = true ∧
    notifyDecision Status.UP Status.DOWN (some 0) 10 =
      ⟨some NotifKind.siteDown, some 10⟩ :=
  ⟨rfl, rfl, C2_first_failure Status.UP Status.DOWN (some 0) 10 rfl rfl⟩

/-- C3: when the persisted previous status is in the FAILING class and the
new result is UP, exactly one recovery notification is dispatched and
last_notified_down_at is cleared to null, for every stored value of the
field and check time (so independent of how many failures preceded and of
the cooldown state). -/
theorem C3_recovery (p : Status) (l : Option Int) (n : Int)
    (hp : isFailing p = true) :
    notifyDecision p Status.UP l n = ⟨some NotifKind.siteRecovered, none⟩ :=
  notifyDecision_recovery p l n hp

/-- Witness for C3 at a concrete input: previous ERROR with a fresh
notification timestamp still yields the recovery message and a cleared
field. -/
theorem C3_recovery_witness :
    isFailing Status.ERROR = true ∧
    notifyDecision Status.ERROR Status.UP (some 9) 10 =
      ⟨some NotifKind.siteRecovered, none⟩ :=
  ⟨rfl, C3_recovery Status.ERROR (some 9) 10 rfl⟩

/-- C4: the Reachability Checker is total — every probe outcome is
classified into exactly one of UP, DOWN, TIMEOUT, ERROR (never PENDING, and
the classification function cannot throw); a response with status in
[200, 500) gives UP and any other response (in particular status at least
500) gives DOWN; a timeout abort gives TIMEOUT and any other transport
failure gives ERROR. -/
theorem C4_checker_total :
    (∀ o : FetchOutcome,
      classifyProbe o = Status.UP ∨ classifyProbe o = Status.DOWN ∨
      classifyProbe o = Status.TIMEOUT ∨ classifyProbe o = Status.ERROR)
    ∧ (∀ s : Nat, classifyProbe (FetchOutcome.response s) =
        if 200 ≤ s ∧ s < 500 then Status.UP else Status.DOWN)
    ∧ classifyProbe FetchOutcome.timeoutError = Status.TIMEOUT
    ∧ classifyProbe FetchOutcome.otherError = Status.ERROR := by
  refine ⟨?_, ?_, rfl, rfl⟩
  · intro o
    cases o with
    | response s =>
      simp only [classifyProbe]
      split
      · exact Or.inl rfl
      · exact Or.inr (Or.inl rfl)
    | timeoutError => exact Or.inr (Or.inr (Or.inl rfl))
    | otherError => exact Or.inr (Or.inr (Or.inr rfl))
  · intro s
    simp only [classifyProbe, respOk]
    by_cases h : 200 ≤ s ∧ s < 500
    · rw [if_pos h, if_pos]
      simp only [Bool.or_eq_true, Bool.and_eq_true, decide_eq_true_eq]
      omega
    · rw [if_neg h, if_neg]
      simp only [Bool.or_eq_true, Bool.and_eq_true, decide_eq_true_eq]
      omega

/- ------------------------------------------------------------------
Claim C5 (corrected: a reported timestamp of exactly 0 is JS-falsy and is
treated as stale even though the claim calls such a host non-stale)
------------------------------------------------------------------ -/

/-- C5 counterexample: a host whose only metrics report carries timestamp 0,
evaluated at now = 100, is not stale by the wording of the claim (it has
reported, and now - timestamp = 100 does not exceed 5 minutes), yet the code
treats it as stale and — its last_notified_down_at being null — dispatches a
down notification and sets the field, where the claim prescribes no action. -/
theorem C5_counterexample :
    claimIsStale (some 0) 100 = false ∧ isStale (some 0) 100 = true ∧
    watchdogCheck (some 0) none 100 =
      ⟨some NotifKind.vpsDown, some 100⟩ := by
  refine ⟨by decide, by decide, ?_⟩
  rfl

/-- C5 (amended): the Watchdog marks a host stale iff it never reported, or
its reported timestamp is exactly 0 (a JS-falsy value), or now minus the
timestamp exceeds 5 minutes; a stale host is notified iff its
last_notified_down_at is null or more than the 1-hour cooldown old, the
field being refreshed to now on send and left unchanged otherwise; a
non-stale host with a non-null field gets one recovery notification and the
field cleared, and a non-stale host with a null field is untouched. -/
theorem C5_watchdog_stale_rule (lastReport lastNotified : Option Int)
    (now : Int) :
    (isStale lastReport now = true ↔
      (lastReport = none ∨ lastReport = some 0 ∨
        ∃ t, lastReport = some t ∧ now - t > staleThresholdSeconds))
    ∧ (isStale lastReport now = true → lastNotified = none →
        watchdogCheck lastReport lastNotified now =
          ⟨some NotifKind.vpsDown, some now⟩)
    ∧ (isStale lastReport now = true → ∀ t, lastNotified = some t →
        now - t > NOTIFICATION_INTERVAL_SECONDS →
        watchdogCheck lastReport lastNotified now =
          ⟨some NotifKind.vpsDown, some now⟩)
    ∧ (isStale lastReport now = true → ∀ t, lastNotified = some t →
        now - t ≤ NOTIFICATION_INTERVAL_SECONDS →
        watchdogCheck lastReport lastNotified now = ⟨none, some t⟩)
    ∧ (isStale lastReport now = false → lastNotified ≠ none →
        watchdogCheck lastReport lastNotified now =
          ⟨some NotifKind.vpsRecovered, none⟩)
    ∧ (isStale lastReport now = false → lastNotified = none →
        watchdogCheck lastReport lastNotified now = ⟨none, none⟩) := by
  refine ⟨?_, ?_, ?_, ?_, ?_, ?_⟩
  · cases lastReport with
    | none => simp [isStale]
    | some t =>
      simp only [isStale, decide_eq_true_eq]
      constructor
      · rintro (h | h)
        · subst h
          exact Or.inr (Or.inl rfl)
        · exact Or.inr (Or.inr ⟨t, rfl, h⟩)
      · rintro (h | h | ⟨u, hu, hgt⟩)
        · exact absurd h (by simp)
        · injection h with h2
          exact Or.inl h2
        · injection hu with hu2
          subst hu2
          exact Or.inr hgt
  · intro hs hn
    unfold watchdogCheck
    rw [if_pos hs, hn]
  · intro hs t hn hgt
    unfold watchdogCheck
    rw [if_pos hs, hn]
    simp only [if_pos hgt]
  · intro hs t hn hle
    unfold watchdogCheck
    rw [if_pos hs, hn]
    simp only []
    rw [if_neg (by omega)]
  · intro hs hn
    unfold watchdogCheck
    rw [if_neg (by simp [hs])]
    cases lastNotified with
    | none => exact absurd rfl hn
    | some t => rfl
  · intro hs hn
    unfold watchdogCheck
    rw [if_neg (by simp [hs]), hn]

/-- Witness for the amended C5 at a concrete input: a host that never
reported, evaluated at now = 100 with a null notification timestamp, is
stale and gets one down notification with the field set to 100. -/
theorem C5_watchdog_stale_rule_witness :
    isStale none 100 = true ∧
    watchdogCheck none none 100 = ⟨some NotifKind.vpsDown, some 100⟩ :=
  ⟨rfl, (C5_watchdog_stale_rule none none 100).2.1 rfl rfl⟩

/- ------------------------------------------------------------------
Claim C7: scheduler batching
------------------------------------------------------------------ -/

lemma batchSitesGo_join {α : Type} :
    ∀ (rest pending : List α), (batchSitesGo pending rest).flatten = pending ++ rest := by
  intro rest
  induction rest with
  | nil =>
    intro pending
    by_cases h : pending.isEmpty
    · simp [batchSitesGo, h, List.isEmpty_iff.mp h]
    · simp [batchSitesGo, h]
  | cons s rest ih =>
    intro pending
    simp only [batchSitesGo]
    by_cases h : siteConcurrencyLimit ≤ (pending ++ [s]).length
    · rw [if_pos h]
      simp [ih []]
    · rw [if_neg h, ih (pending ++ [s])]
      simp

lemma batchSitesGo_size {α : Type} :
    ∀ (rest pending : List α), pending.length < siteConcurrencyLimit →
      ∀ b ∈ batchSitesGo pending rest, b.length ≤ siteConcurrencyLimit := by
  intro rest
  induction rest with
  | nil =>
    intro pending hp b hb
    by_cases h : pending.isEmpty
    · simp [batchSitesGo, h] at hb
    · simp only [batchSitesGo, if_neg h, List.mem_singleton] at hb
      subst hb
      omega
  | cons s rest ih =>
    intro pending hp b hb
    simp only [batchSitesGo] at hb
    by_cases h : siteConcurrencyLimit ≤ (pending ++ [s]).length
    · rw [if_pos h] at hb
      rcases List.mem_cons.mp hb with hb | hb
      · subst hb
        simp only [List.length_append, List.length_cons, List.length_nil] at h ⊢
        omega
      · exact ih [] (by simp [siteConcurrencyLimit]) b hb
    · rw [if_neg h] at hb
      exact ih (pending ++ [s]) (by simp at h ⊢; omega) b hb

/-- C7: over any list of endpoints, one scheduler trigger executes the
checks in consecutive awaited batches each of size at most the concurrency
limit 10, and the batches in order are exactly the loaded endpoint list —
so never more than 10 checks are in flight and every endpoint is checked
exactly once per trigger. -/
theorem C7_bounded_batches {α : Type} (sites : List α) :
    (∀ b ∈ batchSites sites, b.length ≤ siteConcurrencyLimit)
    ∧ (batchSites sites).flatten = sites := by
  constructor
  · exact batchSitesGo_size sites [] (by simp [siteConcurrencyLimit])
  · simpa using batchSitesGo_join sites []

/-- Witness for C7 at a concrete input: 12 endpoints are batched as one
batch of 10 and one of 2; the first batch is within the limit and the
concatenation restores the original list. -/
theorem C7_bounded_batches_witness :
    List.range 10 ∈ batchSites (List.range 12) ∧
    (List.range 10).length ≤ siteConcurrencyLimit ∧
    (batchSites (List.range 12)).flatten = List.range 12 :=
  ⟨by decide,
    (C7_bounded_batches (List.range 12)).1 (List.range 10) (by decide),
    (C7_bounded_batches (List.range 12)).2⟩

/- ------------------------------------------------------------------
Claim C8: unconditional persistence and exactly one appended event
------------------------------------------------------------------ -/

/-- C8: for every check — whatever the notification outcome is, since the
equations below hold for all inputs and do not mention the notification —
the Engine persists last_checked, last_status, last_status_code and
last_response_time_ms from this check, and appends exactly one StatusEvent
row carrying the same status, status code and response time; the previously
recorded rows are preserved unchanged. -/
theorem C8_unconditional_persistence (site : SiteRecord)
    (history : List StatusEvent) (o : FetchOutcome) (rt t : Int) :
    (checkWebsiteStatus site history o rt t).site.last_checked = some t
    ∧ (checkWebsiteStatus site history o rt t).site.last_status =
        classifyProbe o
    ∧ (checkWebsiteStatus site history o rt t).site.last_status_code =
        probeStatusCode o
    ∧ (checkWebsiteStatus site history o rt t).site.last_response_time_ms =
        some rt
    ∧ (checkWebsiteStatus site history o rt t).history =
        history ++ [⟨t, classifyProbe o, probeStatusCode o, some rt⟩]
    ∧ (checkWebsiteStatus site history o rt t).history.length =
        history.length + 1
    ∧ (checkWebsiteStatus site history o rt t).history.take history.length =
        history := by
  refine ⟨rfl, rfl, rfl, rfl, rfl, by simp [checkWebsiteStatus], ?_⟩
  simp only [checkWebsiteStatus]
  exact List.take_left history _

/- ------------------------------------------------------------------
Claim C6 (corrected: the published loss percentage is the truncation of
the binary64 evaluation of (failureCount / sampleCount) * 100, not the
rounding of the exact ratio)
------------------------------------------------------------------ -/

lemma dequeAppend_eq (m : Nat) (q : List Bool) (b : Bool) :
    dequeAppend m q b = (q ++ [b]).drop (q.length + 1 - m) := by
  simp only [dequeAppend, List.length_append, List.length_cons,
    List.length_nil]
  split_ifs with h
  · rfl
  · have h0 : q.length + 1 - m = 0 := by omega
    rw [h0, List.drop_zero]

lemma dequeAppend_length_le (m : Nat) (q : List Bool) (b : Bool)
    (h : q.length ≤ m) : (dequeAppend m q b).length ≤ m := by
  rw [dequeAppend_eq]
  simp only [List.length_drop, List.length_append, List.length_cons,
    List.length_nil]
  omega

lemma pushSamples_eq :
    ∀ (xs q : List Bool), q.length ≤ HISTORY_LEN →
      pushSamples q xs = (q ++ xs).drop (q.length + xs.length - HISTORY_LEN) := by
  intro xs
  induction xs with
  | nil =>
    intro q h
    have h0 : q.length - HISTORY_LEN = 0 := by omega
    simp [pushSamples, h0]
  | cons b rest ih =>
    intro q h
    have hstep : pushSamples q (b :: rest) =
        pushSamples (dequeAppend HISTORY_LEN q b) rest := rfl
    rw [hstep,
      ih (dequeAppend HISTORY_LEN q b) (dequeAppend_length_le HISTORY_LEN q b h),
      dequeAppend_eq]
    have hk : q.length + 1 - HISTORY_LEN ≤ (q ++ [b]).length := by
      simp only [List.length_append, List.length_cons, List.length_nil]
      omega
    rw [← List.drop_append_of_le_length hk, List.drop_drop]
    have harr : (q ++ [b]) ++ rest = q ++ b :: rest := by
      simp
    rw [harr]
    congr 1
    simp only [List.length_drop, List.length_append, List.length_cons,
      List.length_nil]
    omega

lemma pushSamples_keeps_last (old recent : List Bool)
    (h : recent.length = HISTORY_LEN) :
    pushSamples [] (old ++ recent) = recent := by
  rw [pushSamples_eq (old ++ recent) [] (by simp [HISTORY_LEN])]
  simp only [List.nil_append, List.length_nil, List.length_append,
    Nat.zero_add]
  have h0 : old.length + recent.length - HISTORY_LEN = old.length := by
    omega
  rw [h0, List.drop_left]

/-- Binary64 truncation is not the exact floor: a window of 50 samples with
29 failures is published as 57, while the exact floor of 100 * 29 / 50 is
58 — the daemon computes 29 / 50 as the double 0.57999999999999996, whose
product with 100 rounds to 57.99999999999999289, truncated to 57. -/
lemma lossRate_floating_gap :
    lossRate (List.replicate 21 true ++ List.replicate 29 false) = 57 ∧
    100 * 29 / 50 = 58 := by
  constructor <;> rfl

/-- C6 counterexample: a route window holding one success and two failures
is published as 66 by the aggregator (binary64 truncation of 2/3 times
100), while the claimed formula round(100 * failureCount / sampleCount)
gives 67. -/
theorem C6_counterexample :
    lossRate (pushSamples [] [true, false, false]) = 66 ∧
    claimLossPercent (pushSamples [] [true, false, false]) = 67 := by
  constructor <;> rfl

/-- C6 (amended): the published loss percentage equals the truncation
towards zero of the IEEE-754 binary64 evaluation of
(failureCount / sampleCount) * 100 — not its rounding — over the current
window contents only: an empty window yields 0 with no division, the
published value is a function of the at most 100 most recent samples alone
(so samples evicted from the capacity-100 sliding window never influence
the result), and 30 successes followed by 10 failures yield 25. -/
theorem C6_loss_truncated (old recent : List Bool) :
    lossRate [] = 0
    ∧ (recent.length = HISTORY_LEN →
        lossRate (pushSamples [] (old ++ recent)) = lossRate recent)
    ∧ (∀ samples : List Bool, lossRate (pushSamples [] samples) =
        lossRate (samples.drop (samples.length - HISTORY_LEN)))
    ∧ lossRate (pushSamples []
        (List.replicate 30 true ++ List.replicate 10 false)) = 25 := by
  refine ⟨rfl, ?_, ?_, ?_⟩
  · intro h
    rw [pushSamples_keeps_last old recent h]
  · intro samples
    rw [pushSamples_eq samples [] (by simp [HISTORY_LEN])]
    simp
  · rw [pushSamples_eq _ [] (by simp [HISTORY_LEN])]
    rfl

/-- Witness for the amended C6 at concrete inputs: one stale failure pushed
before a full window of 100 successes does not influence the published
value. -/
theorem C6_loss_truncated_witness :
    (List.replicate 100 true : List Bool).length = HISTORY_LEN ∧
    lossRate (pushSamples [] ([false] ++ List.replicate 100 true)) =
      lossRate (List.replicate 100 true) :=
  ⟨by simp [HISTORY_LEN],
    (C6_loss_truncated [false] (List.replicate 100 true)).2.1
      (by simp [HISTORY_LEN])⟩

/- ------------------------------------------------------------------
Claim C9: the last_notified_down_at invariant
------------------------------------------------------------------ -/

lemma notifyDecision_set_clear_untouched (p q : Status) (l : Option Int)
    (n : Int) :
    (((notifyDecision p q l n).notification = some NotifKind.siteDown ∨
        (notifyDecision p q l n).notification = some NotifKind.siteStillDown) →
      (notifyDecision p q l n).lastNotifiedDownAt = some n)
    ∧ ((notifyDecision p q l n).notification = some NotifKind.siteRecovered →
      (notifyDecision p q l n).lastNotifiedDownAt = none)
    ∧ ((notifyDecision p q l n).notification = none →
      (notifyDecision p q l n).lastNotifiedDownAt = l) := by
  cases hq : isFailing q with
  | true =>
    cases hp : isFailing p with
    | true =>
      rw [notifyDecision_failing_failing p q l n hp hq]
      cases l with
      | none => simp
      | some t =>
        by_cases hgt : n - t > NOTIFICATION_INTERVAL_SECONDS <;>
          simp [hgt]
    | false =>
      rw [notifyDecision_first_down p q l n hp hq]
      simp
  | false =>
    by_cases hup : q = Status.UP
    · subst hup
      cases hp : isFailing p with
      | true =>
        rw [notifyDecision_recovery p l n hp]
        simp
      | false =>
        rw [notifyDecision_no_failing p Status.UP l n hp hq]
        simp
    · have hd : notifyDecision p q l n = ⟨none, l⟩ := by
        simp [notifyDecision, hq, hup]
      rw [hd]
      simp

lemma checkWebsiteStatus_preserves_notifInvariant (site : SiteRecord)
    (history : List StatusEvent) (o : FetchOutcome) (rt t : Int)
    (h : notifInvariant site = true) :
    notifInvariant (checkWebsiteStatus site history o rt t).site = true := by
  have hne := classifyProbe_ne_PENDING o
  simp only [notifInvariant, checkWebsiteStatus, Bool.or_eq_true,
    decide_eq_true_eq] at h ⊢
  cases hs : classifyProbe o with
  | PENDING => exact absurd hs hne
  | UP =>
    cases hp : isFailing site.last_status with
    | true =>
      rw [notifyDecision_recovery site.last_status
        site.last_notified_down_at t hp]
      exact Or.inl rfl
    | false =>
      rw [notifyDecision_no_failing site.last_status Status.UP
        site.last_notified_down_at t hp rfl]
      rcases h with h | h
      · exact Or.inl h
      · rw [hp] at h
        exact absurd h (by simp)
  | DOWN => exact Or.inr rfl
  | TIMEOUT => exact Or.inr rfl
  | ERROR => exact Or.inr rfl

lemma runChecks_notifInvariant :
    ∀ (inputs : List (FetchOutcome × Int × Int)) (site : SiteRecord)
      (history : List StatusEvent), notifInvariant site = true →
      notifInvariant (runChecks site history inputs).1 = true := by
  intro inputs
  induction inputs with
  | nil =>
    intro site history h
    exact h
  | cons x rest ih =>
    intro site history h
    obtain ⟨o, rt, t⟩ := x
    exact ih _ _
      (checkWebsiteStatus_preserves_notifInvariant site history o rt t h)

/-- C9: the field last_notified_down_at is set to the check time exactly
when a first-failure or repeat-failure notification is dispatched, cleared
to null exactly on a recovery notification, and left untouched when no
notification is dispatched; the initial row satisfies the invariant that a
non-null field implies a FAILING persisted status, every single Engine
evaluation preserves that invariant, and hence every sequence of
evaluations from the initial row maintains it — so the field is non-null
only while the current run of FAILING statuses is live and was notified. -/
theorem C9_last_notified_invariant :
    notifInvariant initialSite = true
    ∧ (∀ (site : SiteRecord) (history : List StatusEvent) (o : FetchOutcome)
        (rt t : Int), notifInvariant site = true →
        notifInvariant (checkWebsiteStatus site history o rt t).site = true)
    ∧ (∀ (inputs : List (FetchOutcome × Int × Int)),
        notifInvariant (runChecks initialSite [] inputs).1 = true)
    ∧ (∀ (site : SiteRecord) (history : List StatusEvent) (o : FetchOutcome)
        (rt t : Int),
        (((checkWebsiteStatus site history o rt t).notification =
            some NotifKind.siteDown ∨
          (checkWebsiteStatus site history o rt t).notification =
            some NotifKind.siteStillDown) →
          (checkWebsiteStatus site history o rt t).site.last_notified_down_at =
            some t)
        ∧ ((checkWebsiteStatus site history o rt t).notification =
            some NotifKind.siteRecovered →
          (checkWebsiteStatus site history o rt t).site.last_notified_down_at =
            none)
        ∧ ((checkWebsiteStatus site history o rt t).notification = none →
          (checkWebsiteStatus site history o rt t).site.last_notified_down_at =
            site.last_notified_down_at)) := by
  refine ⟨rfl, checkWebsiteStatus_preserves_notifInvariant, ?_, ?_⟩
  · intro inputs
    exact runChecks_notifInvariant inputs initialSite [] rfl
  · intro site history o rt t
    exact notifyDecision_set_clear_untouched site.last_status
      (classifyProbe o) site.last_notified_down_at t

/-- Witness for C9 at a concrete input: a row that is DOWN with a stored
notification timestamp satisfies the invariant, and one further evaluation
(a timeout at second 10) preserves it. -/
theorem C9_last_notified_invariant_witness :
    notifInvariant ⟨none, Status.DOWN, none, none, some 5⟩ = true ∧
    notifInvariant (checkWebsiteStatus ⟨none, Status.DOWN, none, none, some 5⟩
      [] FetchOutcome.timeoutError 3 10).site = true :=
  ⟨rfl, C9_last_notified_invariant.2.1 ⟨none, Status.DOWN, none, none, some 5⟩
    [] FetchOutcome.timeoutError 3 10 rfl⟩

/- ------------------------------------------------------------------
Claim C10: report-body validation by truthiness
------------------------------------------------------------------ -/

/-- C10: the ingestion handler validates timestamp, cpu, memory, disk and
network by truthiness, so a body in which any of them is falsy — in
particular present but falsy, like timestamp 0 — is answered with status
400 and the stored MetricsSnapshot is not modified; uptime is checked only
against the undefined type, so uptime 0 (with the five truthy) is accepted
with status 200; and every rejected report leaves the snapshot unchanged. -/
theorem C10_truthiness_validation (r : ReportBody) (stored : Option ReportBody) :
    ((truthy r.timestamp = false ∨ truthy r.cpu = false ∨
      truthy r.memory = false ∨ truthy r.disk = false ∨
      truthy r.network = false) →
      handleReport r stored = (400, stored))
    ∧ (truthy r.timestamp = true → truthy r.cpu = true →
        truthy r.memory = true → truthy r.disk = true →
        truthy r.network = true → r.uptime = JVal.num 0 →
        (handleReport r stored).1 = 200)
    ∧ ((handleReport r stored).1 = 400 →
        (handleReport r stored).2 = stored) := by
  refine ⟨?_, ?_, ?_⟩
  · intro h
    have hv : reportValid r = false := by
      simp only [reportValid, Bool.and_eq_false_iff]
      rcases h with h | h | h | h | h <;> simp [h]
    simp [handleReport, hv]
  · intro h1 h2 h3 h4 h5 h6
    have hv : reportValid r = true := by
      simp [reportValid, h1, h2, h3, h4, h5, h6]
    simp [handleReport, hv]
  · intro h
    by_cases hv : reportValid r = true
    · simp [handleReport, hv] at h
    · simp only [Bool.not_eq_true] at hv
      simp [handleReport, hv]

/-- Witness for C10 at concrete inputs: a body with timestamp 0 (all other
required fields present) is rejected with 400 and an empty store stays
empty; the same body with timestamp 5 and uptime 0 is accepted with 200. -/
theorem C10_truthiness_validation_witness :
    truthy (JVal.num 0) = false ∧
    handleReport ⟨JVal.num 0, JVal.obj, JVal.obj, JVal.obj, JVal.obj,
      JVal.num 3, JVal.obj⟩ none = (400, none) ∧
    (handleReport ⟨JVal.num 5, JVal.obj, JVal.obj, JVal.obj, JVal.obj,
      JVal.num 0, JVal.undef⟩ none).1 = 200 :=
  ⟨rfl,
    (C10_truthiness_validation ⟨JVal.num 0, JVal.obj, JVal.obj, JVal.obj,
      JVal.obj, JVal.num 3, JVal.obj⟩ none).1 (Or.inl rfl),
    (C10_truthiness_validation ⟨JVal.num 5, JVal.obj, JVal.obj, JVal.obj,
      JVal.obj, JVal.num 0, JVal.undef⟩ none).2.1 (by decide) rfl rfl rfl rfl
      rfl⟩

end CfVps
